import Mathlib

/-
Shallow embedding of src/ntpshm.c from the gpsd repository: the NTP
shared-memory refclock publisher, the segment-pool allocator, the chrony
datagram sample sink, and the PPS report hook.

Modelling conventions:
  * A shared-memory segment handle is the index of its slot in the context
    bank (`Fin NTPSHMSEGS`); pointer equality between live segments in the C
    code corresponds to index equality here, and a null pointer to `none`.
  * Machine integers are modelled as `Int`; the explicit C casts
    `(int)` and `(unsigned)` in ntpshm_put are modelled by wrapping
    (`wrapInt32`, `wrapUInt32`).  C `/` on nonneg operands truncates toward
    zero, modelled by `Int.tdiv`.
  * System calls (shmget/shmat, socket open) are parametrized by an
    environment record supplying their results.
-/

/-- NTPSHMSEGS: the number of NTP shared-memory segments in the bank. -/
def NTPSHMSEGS : Nat := 8

/-- NTPD_BASE: the SysV IPC key of segment 0 (ASCII "NTP0"). -/
def NTPD_BASE : Int := 0x4e545030

/-- PPS_MIN_FIXES: number of fixes to wait for before shipping PPS. -/
def PPS_MIN_FIXES : Int := 3

/-- SOCK_MAGIC: magic constant of the chrony sample datagram. -/
def SOCK_MAGIC : Int := 0x534f434b

/-- LEAP_NOTINSYNC: the "clock alarm" leap code (value per the NTP
leap-code convention used by gpsd.h). -/
def LEAP_NOTINSYNC : Int := 3

/-- Wrapping of an integer into a 32-bit signed int, the effect of the
C cast `(int)` on an out-of-range value (two's complement). -/
def wrapInt32 (x : Int) : Int := (x + 2147483648) % 4294967296 - 2147483648

/-- Wrapping of an integer into a 32-bit unsigned int, the effect of the
C cast `(unsigned)`. -/
def wrapUInt32 (x : Int) : Int := x % 4294967296

/-- struct timespec: seconds and nanoseconds. -/
structure Timespec where
  tv_sec : Int
  tv_nsec : Int
deriving DecidableEq, Repr

/-- struct timedrift_t: the GPS wall-clock instant (`real`) and the local
clock instant (`clock`) of the same event. -/
structure TimeDrift where
  real : Timespec
  clock : Timespec
deriving DecidableEq, Repr

/-- struct shmTime, the refclock slot layout shared with ntpd.  The
`dummy` padding words are carried so that zeroing the record is exact. -/
structure ShmTime where
  mode : Int
  count : Int
  clockTimeStampSec : Int
  clockTimeStampUSec : Int
  receiveTimeStampSec : Int
  receiveTimeStampUSec : Int
  leap : Int
  precision : Int
  nsamples : Int
  valid : Int
  clockTimeStampNSec : Int
  receiveTimeStampNSec : Int
  dummy : List Int
deriving DecidableEq, Repr

/-- Modelled from the spec: device source types (`sourcetype_t` of gpsd.h,
which is not among the sources).  ntpshm.c only distinguishes `source_pty`
(test/simulated, never talks to NTP) and the PPS-capable `source_usb` /
`source_rs232`; the remaining constructors stand for the other values. -/
inductive SourceType where
  | source_unknown
  | source_rs232
  | source_usb
  | source_bluetooth
  | source_pty
  | source_tcp
  | source_udp
deriving DecidableEq, Repr

/-- The slice of struct gps_context_t that ntpshm.c uses: the segment bank
(`shmTime`, none = null handle), the in-use flags (`shmTimeInuse`), and the
process-wide leap hint (`leap_notify`). -/
structure GpsContext where
  shmTime : Fin NTPSHMSEGS → Option ShmTime
  shmTimeInuse : Fin NTPSHMSEGS → Bool
  leap_notify : Int

/-- The slice of struct gps_device_t that ntpshm.c uses.  `pps_active` and
`hooks_installed` stand for the externally-managed PPS listener thread and
its installed report/wrap hooks. -/
structure GpsSession where
  shm_clock : Option (Fin NTPSHMSEGS)
  shm_pps : Option (Fin NTPSHMSEGS)
  chronyfd : Int
  ship_to_ntpd : Bool
  fixcnt : Int
  sourcetype : SourceType
  pps_active : Bool
  hooks_installed : Bool
deriving DecidableEq, Repr

/-- Names of the scalar fields of struct shmTime, used to record the write
trace of ntpshm_put. -/
inductive ShmField where
  | mode
  | count
  | clockTimeStampSec
  | clockTimeStampUSec
  | receiveTimeStampSec
  | receiveTimeStampUSec
  | leap
  | precision
  | nsamples
  | valid
  | clockTimeStampNSec
  | receiveTimeStampNSec
deriving DecidableEq, Repr

/-- One store instruction of ntpshm_put: a plain store, an increment
(`count++`), or a memory barrier (which writes nothing). -/
inductive ShmWrite where
  | store (f : ShmField) (v : Int)
  | inc (f : ShmField)
  | barrier
deriving DecidableEq, Repr

/-- Read one scalar field of a slot by name. -/
def getField (s : ShmTime) : ShmField → Int
  | .mode => s.mode
  | .count => s.count
  | .clockTimeStampSec => s.clockTimeStampSec
  | .clockTimeStampUSec => s.clockTimeStampUSec
  | .receiveTimeStampSec => s.receiveTimeStampSec
  | .receiveTimeStampUSec => s.receiveTimeStampUSec
  | .leap => s.leap
  | .precision => s.precision
  | .nsamples => s.nsamples
  | .valid => s.valid
  | .clockTimeStampNSec => s.clockTimeStampNSec
  | .receiveTimeStampNSec => s.receiveTimeStampNSec

/-- Write one scalar field of a slot by name. -/
def setField (s : ShmTime) : ShmField → Int → ShmTime
  | .mode, v => { s with mode := v }
  | .count, v => { s with count := v }
  | .clockTimeStampSec, v => { s with clockTimeStampSec := v }
  | .clockTimeStampUSec, v => { s with clockTimeStampUSec := v }
  | .receiveTimeStampSec, v => { s with receiveTimeStampSec := v }
  | .receiveTimeStampUSec, v => { s with receiveTimeStampUSec := v }
  | .leap, v => { s with leap := v }
  | .precision, v => { s with precision := v }
  | .nsamples, v => { s with nsamples := v }
  | .valid, v => { s with valid := v }
  | .clockTimeStampNSec, v => { s with clockTimeStampNSec := v }
  | .receiveTimeStampNSec, v => { s with receiveTimeStampNSec := v }

/-- Apply one traced write to a slot. -/
def applyWrite (s : ShmTime) : ShmWrite → ShmTime
  | .store f v => setField s f v
  | .inc f => setField s f (getField s f + 1)
  | .barrier => s

/-- Whether a traced write touches field `f`. -/
def writesField (w : ShmWrite) (f : ShmField) : Bool :=
  match w with
  | .store g _ => g == f
  | .inc g => g == f
  | .barrier => false

/-- The field a traced write stores to, if it is a plain store. -/
def storedField (w : ShmWrite) : Option ShmField :=
  match w with
  | .store g _ => some g
  | .inc _ => none
  | .barrier => none

/-- The exact sequence of stores ntpshm_put issues to an attached slot
(src/ntpshm.c lines 298-315), in program order.  `precision` is -20 when
the slot is the session's PPS segment (shmTime == session->shm_pps),
else -1; `leap` is copied from session->context->leap_notify. -/
def ntpshm_put_trace (ctx : GpsContext) (sess : GpsSession)
    (h : Fin NTPSHMSEGS) (td : TimeDrift) : List ShmWrite :=
  [ShmWrite.store ShmField.valid 0,
   ShmWrite.inc ShmField.count,
   ShmWrite.barrier,
   ShmWrite.store ShmField.clockTimeStampSec td.real.tv_sec,
   ShmWrite.store ShmField.clockTimeStampUSec (wrapInt32 (Int.tdiv td.real.tv_nsec 1000)),
   ShmWrite.store ShmField.clockTimeStampNSec (wrapUInt32 td.real.tv_nsec),
   ShmWrite.store ShmField.receiveTimeStampSec td.clock.tv_sec,
   ShmWrite.store ShmField.receiveTimeStampUSec (wrapInt32 (Int.tdiv td.clock.tv_nsec 1000)),
   ShmWrite.store ShmField.receiveTimeStampNSec (wrapUInt32 td.clock.tv_nsec),
   ShmWrite.store ShmField.leap ctx.leap_notify,
   ShmWrite.store ShmField.precision (if sess.shm_pps = some h then -20 else -1),
   ShmWrite.barrier,
   ShmWrite.inc ShmField.count,
   ShmWrite.store ShmField.valid 1]

/-- Update the contents of the attached segment at index `h` in the bank. -/
def writeSeg (ctx : GpsContext) (h : Fin NTPSHMSEGS) (f : ShmTime → ShmTime) : GpsContext :=
  { ctx with shmTime := fun j => if j = h then (ctx.shmTime j).map f else ctx.shmTime j }

/-- ntpshm_put: publish a timedrift into a slot.  A null handle logs and
returns 0 without writing; otherwise the traced stores are applied in
order and 1 is returned. -/
def ntpshm_put (ctx : GpsContext) (sess : GpsSession)
    (shmseg : Option (Fin NTPSHMSEGS)) (td : TimeDrift) : Int × GpsContext :=
  match shmseg with
  | none => (0, ctx)
  | some h =>
    (1, writeSeg ctx h (fun s => (ntpshm_put_trace ctx sess h td).foldl applyWrite s))

/-- Whether bank slot `i` can be handed out by ntpshm_alloc: attached
(non-null) and not in use. -/
def isFreeSeg (ctx : GpsContext) (i : Fin NTPSHMSEGS) : Bool :=
  (ctx.shmTime i).isSome && !ctx.shmTimeInuse i

/-- The slot contents ntpshm_alloc installs: memset to zero, then mode=1,
leap=LEAP_NOTINSYNC, precision=-1, nsamples=3. -/
def freshShm : ShmTime :=
  { mode := 1, count := 0, clockTimeStampSec := 0, clockTimeStampUSec := 0,
    receiveTimeStampSec := 0, receiveTimeStampUSec := 0, leap := LEAP_NOTINSYNC,
    precision := -1, nsamples := 3, valid := 0, clockTimeStampNSec := 0,
    receiveTimeStampNSec := 0, dummy := List.replicate 8 0 }

/-- Effect of ntpshm_alloc claiming slot `i`: the in-use flag is set and the
slot is reinitialized to `freshShm`. -/
def allocEffect (ctx : GpsContext) (i : Fin NTPSHMSEGS) : GpsContext :=
  { ctx with
    shmTimeInuse := fun j => if j = i then true else ctx.shmTimeInuse j,
    shmTime := fun j => if j = i then some freshShm else ctx.shmTime j }

/-- The scan loop of ntpshm_alloc, beginning at index `i`.  The fuel
argument makes the recursion structural; it is always at least
`NTPSHMSEGS - i` at the call sites, so the loop never runs out early. -/
def allocScan (ctx : GpsContext) : Nat → Nat → Option (Fin NTPSHMSEGS) × GpsContext
  | _, 0 => (none, ctx)
  | i, fuel + 1 =>
    if h : i < NTPSHMSEGS then
      if isFreeSeg ctx ⟨i, h⟩ then (some ⟨i, h⟩, allocEffect ctx ⟨i, h⟩)
      else allocScan ctx (i + 1) fuel
    else (none, ctx)

/-- ntpshm_alloc: lease the first attached, not-in-use slot of the bank,
or none when every slot is null or in use. -/
def ntpshm_alloc (ctx : GpsContext) : Option (Fin NTPSHMSEGS) × GpsContext :=
  allocScan ctx 0 NTPSHMSEGS

/-- ntpshm_free: scan the bank for the slot whose pointer equals the
handle and clear its in-use flag.  With index handles, the pointer of a
live handle `h` matches exactly the bank entry at `h`; a handle whose bank
entry is null cannot arise from the bank, so the scan finds nothing. -/
def ntpshm_free (ctx : GpsContext) (h : Fin NTPSHMSEGS) : Bool × GpsContext :=
  if (ctx.shmTime h).isSome then
    (true, { ctx with shmTimeInuse := fun j => if j = h then false else ctx.shmTimeInuse j })
  else (false, ctx)

/-- The chrony sample datagram payload (struct sock_sample).  The `_pad`
word is never assigned outside Coverity builds and is omitted; `offset`
is modelled as the exact rational value of the double computation. -/
structure SockSample where
  tv_sec : Int
  tv_usec : Int
  offset : Rat
  pulse : Int
  leap : Int
  magic : Int
deriving DecidableEq, Repr

/-- Modelled from the spec: `timespec_diff_ns` (a gpsd header macro, not
among the sources) is the nanosecond difference of two timespecs,
`real_ns - clock_ns` in the spec's words. -/
def timespec_diff_ns (x y : Timespec) : Int :=
  (x.tv_sec - y.tv_sec) * 1000000000 + x.tv_nsec - y.tv_nsec

/-- Modelled from the spec: `TSTOTV` (a gpsd header macro, not among the
sources) converts a timespec to a microsecond-resolution timeval. -/
def TSTOTV (ts : Timespec) : Int × Int := (ts.tv_sec, Int.tdiv ts.tv_nsec 1000)

/-- chrony_send: build the sample record for a pulse and transmit it on
session->chronyfd.  The returned record is the datagram payload; the
transmission itself is I/O and its result is discarded by the code. -/
def chrony_send (ctx : GpsContext) (td : TimeDrift) : SockSample :=
  { pulse := 0,
    leap := ctx.leap_notify,
    magic := SOCK_MAGIC,
    tv_sec := (TSTOTV td.clock).1,
    tv_usec := (TSTOTV td.clock).2,
    offset := ((timespec_diff_ns td.real td.clock : Int) : Rat) / 1000000000 }

/-- report_hook: ship the time of a PPS event to ntpd and/or chrony.
Returns the diagnostic label, the context after any slot publish, and the
list of datagrams transmitted on the chrony socket. -/
def report_hook (ctx : GpsContext) (sess : GpsSession) (td : TimeDrift) :
    String × GpsContext × List SockSample :=
  if sess.ship_to_ntpd = false then ("skipped ship_to_ntp=0", ctx, [])
  else if sess.fixcnt ≤ PPS_MIN_FIXES then ("no fix", ctx, [])
  else
    let log1 := if 0 ≤ sess.chronyfd then "accepted chrony sock" else "accepted"
    let sent := if 0 ≤ sess.chronyfd then [chrony_send ctx td] else []
    let ctx2 := match sess.shm_pps with
      | some h => (ntpshm_put ctx sess (some h) td).2
      | none => ctx
    (log1, ctx2, sent)

/-- init_hook: open the per-device chrony socket and store its descriptor
in session->chronyfd.  The path probing and socket call are I/O; `fd` is
the descriptor the environment yields (-1 when the socket is absent or
the connect fails). -/
def init_hook (sess : GpsSession) (fd : Int) : GpsSession :=
  { sess with chronyfd := fd }

/-- ntpshm_link_deactivate: release ntpshm storage for a session.  Each
non-null segment handle is freed and cleared; a non-null PPS handle also
stops the PPS listener thread first (modelled by clearing pps_active). -/
def ntpshm_link_deactivate (ctx : GpsContext) (sess : GpsSession) :
    GpsContext × GpsSession :=
  let step1 : GpsContext × GpsSession :=
    match sess.shm_clock with
    | some h => ((ntpshm_free ctx h).2, { sess with shm_clock := none })
    | none => (ctx, sess)
  match step1.2.shm_pps with
  | some h =>
    ((ntpshm_free step1.1 h).2,
     { step1.2 with shm_pps := none, pps_active := false })
  | none => step1

/-- ntpshm_link_activate: set up ntpshm storage for a session.  A pty
source does nothing; otherwise a clock segment is allocated, and for
usb/rs232 sources a PPS segment too, in which case the chrony socket is
opened (descriptor `ihFd` from the environment), the hooks are installed
and the PPS listener thread is started. -/
def ntpshm_link_activate (ctx : GpsContext) (sess : GpsSession) (ihFd : Int) :
    GpsContext × GpsSession :=
  if sess.sourcetype = SourceType.source_pty then (ctx, sess)
  else
    let r1 := ntpshm_alloc ctx
    let s1 := { sess with shm_clock := r1.1 }
    match r1.1 with
    | none => (r1.2, s1)
    | some _ =>
      if sess.sourcetype = SourceType.source_usb ∨
         sess.sourcetype = SourceType.source_rs232 then
        let r2 := ntpshm_alloc r1.2
        let s2 := { s1 with shm_pps := r2.1 }
        match r2.1 with
        | none => (r2.2, s2)
        | some _ =>
          (r2.2, { init_hook s2 ihFd with hooks_installed := true, pps_active := true })
      else (r1.2, s1)

/-- The environment of ntpshm_context_init: what shmget/shmat yields for
each segment unit (none = failure), and the result of getuid(). -/
structure ShmEnv where
  attach : Nat → Option ShmTime
  uid : Nat

/-- The arguments of one shmget call made by getShmTime. -/
structure AttachCall where
  unit : Nat
  key : Int
  perms : Nat
deriving DecidableEq, Repr

/-- The key and permissions getShmTime passes to shmget for a unit:
key NTPD_BASE + unit, permissions 0600 below unit 2 and 0666 from 2 on. -/
def getShmTime_call (unit : Nat) : AttachCall :=
  { unit := unit, key := NTPD_BASE + unit, perms := if unit < 2 then 0o600 else 0o666 }

/-- getShmTime: attach one segment; the environment decides whether the
shmget/shmat pair succeeds. -/
def getShmTime (env : ShmEnv) (unit : Nat) : Option ShmTime :=
  env.attach unit

/-- ntpshm_context_init: attach all segments the calling privilege
permits (all of them as root, only units 2 and up otherwise; a handle
whose attachment is skipped keeps its previous value), then zero the
in-use flags.  Also returns the list of attach calls issued. -/
def ntpshm_context_init (env : ShmEnv) (ctx : GpsContext) :
    GpsContext × List AttachCall :=
  ({ ctx with
     shmTime := fun i =>
       if 2 ≤ i.val ∨ env.uid = 0 then getShmTime env i.val else ctx.shmTime i,
     shmTimeInuse := fun _ => false },
   (List.finRange NTPSHMSEGS).filterMap
     (fun i => if 2 ≤ i.val ∨ env.uid = 0 then some (getShmTime_call i.val) else none))

/-- A concrete bank for witnesses: slot 0 attached (and free), others null. -/
def exCtx : GpsContext :=
  { shmTime := fun i => if i.val = 0 then some freshShm else none,
    shmTimeInuse := fun _ => false,
    leap_notify := 0 }

/-- A concrete timedrift for witnesses (the spec's end-to-end scenario 1). -/
def exTd : TimeDrift :=
  { real := { tv_sec := 1700000000, tv_nsec := 500000000 },
    clock := { tv_sec := 1699999999, tv_nsec := 999999000 } }

/-- A concrete active PPS session for witnesses: chrony socket open,
slot 0 as PPS segment, past the fix gate. -/
def exSess : GpsSession :=
  { shm_clock := none, shm_pps := some ⟨0, by decide⟩, chronyfd := 3,
    ship_to_ntpd := true, fixcnt := 5, sourcetype := SourceType.source_usb,
    pps_active := true, hooks_installed := true }

/-- A concrete never-activated session for witnesses. -/
def exSessEmpty : GpsSession :=
  { shm_clock := none, shm_pps := none, chronyfd := -1,
    ship_to_ntpd := true, fixcnt := 0, sourcetype := SourceType.source_tcp,
    pps_active := false, hooks_installed := false }

/-- C10: ntpshm_put called with a null segment handle returns 0 and
performs no write at all: the bank, the in-use flags and every attached
slot are exactly as before. -/
theorem ntpshm_put_null_noop (ctx : GpsContext) (sess : GpsSession) (td : TimeDrift) :
    ntpshm_put ctx sess none td = (0, ctx) := rfl

/-- C7: every sample record built by chrony_send has pulse 0, magic
0x534F434B, leap from the context's leap_notify, tv equal to td.clock
converted to a microsecond timeval, and offset the nanosecond difference
real - clock divided by 1e9. -/
theorem chrony_send_sample_fields (ctx : GpsContext) (td : TimeDrift) :
    (chrony_send ctx td).pulse = 0 ∧
    (chrony_send ctx td).magic = 0x534F434B ∧
    (chrony_send ctx td).leap = ctx.leap_notify ∧
    ((chrony_send ctx td).tv_sec, (chrony_send ctx td).tv_usec) = TSTOTV td.clock ∧
    (chrony_send ctx td).offset =
      (((td.real.tv_sec * 1000000000 + td.real.tv_nsec) -
        (td.clock.tv_sec * 1000000000 + td.clock.tv_nsec) : Int) : Rat) / 1000000000 := by
  refine ⟨rfl, by norm_num [chrony_send, SOCK_MAGIC], rfl, rfl, ?_⟩
  show ((timespec_diff_ns td.real td.clock : Int) : Rat) / 1000000000 = _
  unfold timespec_diff_ns
  push_cast
  ring_nf

/-- C9: ntpshm_link_deactivate always leaves both segment handles null, is
a no-op on a session whose handles are already null (never activated or
already deactivated), and is therefore idempotent. -/
theorem ntpshm_link_deactivate_idempotent (ctx : GpsContext) (sess : GpsSession) :
    (ntpshm_link_deactivate ctx sess).2.shm_clock = none ∧
    (ntpshm_link_deactivate ctx sess).2.shm_pps = none ∧
    (sess.shm_clock = none → sess.shm_pps = none →
      ntpshm_link_deactivate ctx sess = (ctx, sess)) ∧
    ntpshm_link_deactivate (ntpshm_link_deactivate ctx sess).1
      (ntpshm_link_deactivate ctx sess).2 = ntpshm_link_deactivate ctx sess := by
  have hnone : (ntpshm_link_deactivate ctx sess).2.shm_clock = none ∧
      (ntpshm_link_deactivate ctx sess).2.shm_pps = none := by
    unfold ntpshm_link_deactivate
    cases hc : sess.shm_clock <;> cases hp : sess.shm_pps <;> simp [hc, hp]
  have hnoop : ∀ c s, s.shm_clock = none → s.shm_pps = none →
      ntpshm_link_deactivate c s = (c, s) := by
    intro c s h1 h2
    unfold ntpshm_link_deactivate
    simp [h1, h2]
  exact ⟨hnone.1, hnone.2, hnoop ctx sess,
    hnoop _ _ hnone.1 hnone.2⟩

/-- C9 witness: on a never-activated concrete session, deactivate frees
nothing and changes nothing. -/
theorem ntpshm_link_deactivate_idempotent_witness :
    exSessEmpty.shm_clock = none ∧
    ntpshm_link_deactivate exCtx exSessEmpty = (exCtx, exSessEmpty) :=
  ⟨rfl, ((ntpshm_link_deactivate_idempotent exCtx exSessEmpty).2.2.1 rfl rfl)⟩

/-- C1 (amended): ntpshm_put writes an attached slot in exactly this
order: valid cleared, count incremented, memory barrier, stores to the
clock timestamp fields, the receive timestamp fields, leap and precision
(and to no other field; nsamples in particular is not written by publish,
it is set at allocation), memory barrier, count incremented, valid set
to 1. -/
theorem ntpshm_put_write_order (ctx : GpsContext) (sess : GpsSession)
    (h : Fin NTPSHMSEGS) (td : TimeDrift) :
    ∃ payload : List ShmWrite,
      ntpshm_put_trace ctx sess h td =
        [ShmWrite.store ShmField.valid 0, ShmWrite.inc ShmField.count,
         ShmWrite.barrier] ++ payload ++
        [ShmWrite.barrier, ShmWrite.inc ShmField.count,
         ShmWrite.store ShmField.valid 1] ∧
      payload.map storedField =
        [some ShmField.clockTimeStampSec, some ShmField.clockTimeStampUSec,
         some ShmField.clockTimeStampNSec, some ShmField.receiveTimeStampSec,
         some ShmField.receiveTimeStampUSec, some ShmField.receiveTimeStampNSec,
         some ShmField.leap, some ShmField.precision] := by
  refine ⟨[ShmWrite.store ShmField.clockTimeStampSec td.real.tv_sec,
    ShmWrite.store ShmField.clockTimeStampUSec (wrapInt32 (Int.tdiv td.real.tv_nsec 1000)),
    ShmWrite.store ShmField.clockTimeStampNSec (wrapUInt32 td.real.tv_nsec),
    ShmWrite.store ShmField.receiveTimeStampSec td.clock.tv_sec,
    ShmWrite.store ShmField.receiveTimeStampUSec (wrapInt32 (Int.tdiv td.clock.tv_nsec 1000)),
    ShmWrite.store ShmField.receiveTimeStampNSec (wrapUInt32 td.clock.tv_nsec),
    ShmWrite.store ShmField.leap ctx.leap_notify,
    ShmWrite.store ShmField.precision (if sess.shm_pps = some h then -20 else -1)],
    rfl, rfl⟩

/-- C1 counterexample: the claim as stated requires nsamples to be written
between the barriers, but at this concrete input no element of the write
trace of ntpshm_put touches nsamples at all. -/
theorem ntpshm_put_no_nsamples_write :
    (ntpshm_put_trace exCtx exSess ⟨0, by decide⟩ exTd).any
      (fun w => writesField w ShmField.nsamples) = false := by decide

/-- Helper: the unsigned cast is the identity on a valid nanosecond count. -/
theorem wrapUInt32_of_nsec (n : Int) (h1 : 0 ≤ n) (h2 : n < 1000000000) :
    wrapUInt32 n = n := by
  unfold wrapUInt32
  omega

/-- Helper: the int cast of the truncating microsecond division is plain
division on a valid nanosecond count. -/
theorem wrapInt32_usec (n : Int) (h1 : 0 ≤ n) (h2 : n < 1000000000) :
    wrapInt32 (Int.tdiv n 1000) = n / 1000 := by
  rw [Int.tdiv_eq_ediv h1 (by norm_num)]
  unfold wrapInt32
  omega

/-- C2: after ntpshm_put on a non-null, attached slot, the slot holds
td.real in the clock timestamp fields and td.clock in the receive
timestamp fields, with the microsecond fields equal to the nanosecond
fields divided by 1000, leap equal to the context's leap_notify, and
precision -20 exactly when the slot is the session's PPS segment and -1
otherwise. -/
theorem ntpshm_put_fields (ctx : GpsContext) (sess : GpsSession)
    (h : Fin NTPSHMSEGS) (td : TimeDrift) (s : ShmTime)
    (hseg : ctx.shmTime h = some s)
    (hr1 : 0 ≤ td.real.tv_nsec) (hr2 : td.real.tv_nsec < 1000000000)
    (hc1 : 0 ≤ td.clock.tv_nsec) (hc2 : td.clock.tv_nsec < 1000000000) :
    ∃ s2 : ShmTime,
      (ntpshm_put ctx sess (some h) td).2.shmTime h = some s2 ∧
      s2.clockTimeStampSec = td.real.tv_sec ∧
      s2.clockTimeStampNSec = td.real.tv_nsec ∧
      s2.clockTimeStampUSec = s2.clockTimeStampNSec / 1000 ∧
      s2.receiveTimeStampSec = td.clock.tv_sec ∧
      s2.receiveTimeStampNSec = td.clock.tv_nsec ∧
      s2.receiveTimeStampUSec = s2.receiveTimeStampNSec / 1000 ∧
      s2.leap = ctx.leap_notify ∧
      s2.precision = (if sess.shm_pps = some h then -20 else -1) ∧
      s2.valid = 1 := by
  refine ⟨(ntpshm_put_trace ctx sess h td).foldl applyWrite s, ?_, ?_⟩
  · simp [ntpshm_put, writeSeg, hseg]
  · simp [ntpshm_put_trace, applyWrite, setField, getField,
      wrapInt32_usec td.real.tv_nsec hr1 hr2,
      wrapUInt32_of_nsec td.real.tv_nsec hr1 hr2,
      wrapInt32_usec td.clock.tv_nsec hc1 hc2,
      wrapUInt32_of_nsec td.clock.tv_nsec hc1 hc2]

/-- C2 witness: the concrete publish of exTd into attached slot 0, which
is the session's PPS segment. -/
theorem ntpshm_put_fields_witness :
    exCtx.shmTime ⟨0, by decide⟩ = some freshShm ∧
    ∃ s2 : ShmTime,
      (ntpshm_put exCtx exSess (some ⟨0, by decide⟩) exTd).2.shmTime ⟨0, by decide⟩ =
        some s2 ∧
      s2.clockTimeStampSec = exTd.real.tv_sec ∧
      s2.clockTimeStampNSec = exTd.real.tv_nsec ∧
      s2.clockTimeStampUSec = s2.clockTimeStampNSec / 1000 ∧
      s2.receiveTimeStampSec = exTd.clock.tv_sec ∧
      s2.receiveTimeStampNSec = exTd.clock.tv_nsec ∧
      s2.receiveTimeStampUSec = s2.receiveTimeStampNSec / 1000 ∧
      s2.leap = exCtx.leap_notify ∧
      s2.precision = (if exSess.shm_pps = some ⟨0, by decide⟩ then -20 else -1) ∧
      s2.valid = 1 :=
  ⟨by decide,
   ntpshm_put_fields exCtx exSess ⟨0, by decide⟩ exTd freshShm (by decide)
     (by decide) (by decide) (by decide) (by decide)⟩

/-- C3 (amended): whenever the session's fix count is at most
PPS_MIN_FIXES, report_hook writes no shared-memory slot field and
transmits no datagram, and — provided ship_to_ntpd is set, which is
checked first — returns "no fix" (with ship_to_ntpd clear it returns
"skipped ship_to_ntp=0" instead, still without writing anything). -/
theorem report_hook_min_fixes_gate (ctx : GpsContext) (sess : GpsSession)
    (td : TimeDrift) (hfix : sess.fixcnt ≤ PPS_MIN_FIXES) :
    (report_hook ctx sess td).2.1 = ctx ∧
    (report_hook ctx sess td).2.2 = [] ∧
    (sess.ship_to_ntpd = true → (report_hook ctx sess td).1 = "no fix") := by
  unfold report_hook
  cases hs : sess.ship_to_ntpd <;> simp [hs, hfix]

/-- C3 witness: a concrete shipping session with fix count 2 returns
"no fix", leaves the bank untouched and sends nothing. -/
theorem report_hook_min_fixes_gate_witness :
    ({ exSess with fixcnt := 2 } : GpsSession).fixcnt ≤ PPS_MIN_FIXES ∧
    ((report_hook exCtx { exSess with fixcnt := 2 } exTd).2.1 = exCtx ∧
     (report_hook exCtx { exSess with fixcnt := 2 } exTd).2.2 = [] ∧
     (({ exSess with fixcnt := 2 } : GpsSession).ship_to_ntpd = true →
       (report_hook exCtx { exSess with fixcnt := 2 } exTd).1 = "no fix")) :=
  ⟨by decide, report_hook_min_fixes_gate exCtx { exSess with fixcnt := 2 } exTd (by decide)⟩

/-- C3 counterexample: the claim quantifies over every session, but a
session with ship_to_ntpd clear and fix count below the gate returns
"skipped ship_to_ntp=0", not "no fix". -/
theorem report_hook_skipped_not_no_fix :
    ({ exSess with ship_to_ntpd := false, fixcnt := 2 } : GpsSession).fixcnt ≤
      PPS_MIN_FIXES ∧
    (report_hook exCtx { exSess with ship_to_ntpd := false, fixcnt := 2 } exTd).1 =
      "skipped ship_to_ntp=0" ∧
    (report_hook exCtx { exSess with ship_to_ntpd := false, fixcnt := 2 } exTd).1 ≠
      "no fix" := by
  refine ⟨by decide, rfl, by decide⟩

/-- Helper: the Bool test isFreeSeg as a proposition. -/
theorem isFreeSeg_iff (ctx : GpsContext) (j : Fin NTPSHMSEGS) :
    isFreeSeg ctx j = true ↔
      ((ctx.shmTime j).isSome = true ∧ ctx.shmTimeInuse j = false) := by
  simp [isFreeSeg, Bool.and_eq_true, Bool.not_eq_true']

/-- Helper: full case analysis of the ntpshm_alloc scan loop started at
index `i` with enough fuel: either no slot from `i` on is free and the
context is returned unchanged, or the scan stops at the first free slot
`k` at or after `i` and applies exactly `allocEffect` at `k`. -/
theorem allocScan_cases (ctx : GpsContext) :
    ∀ fuel i, NTPSHMSEGS ≤ i + fuel →
      (allocScan ctx i fuel = (none, ctx) ∧
        ∀ j : Fin NTPSHMSEGS, i ≤ j.val → isFreeSeg ctx j = false) ∨
      (∃ k : Fin NTPSHMSEGS, i ≤ k.val ∧ isFreeSeg ctx k = true ∧
        (∀ j : Fin NTPSHMSEGS, i ≤ j.val → j.val < k.val → isFreeSeg ctx j = false) ∧
        allocScan ctx i fuel = (some k, allocEffect ctx k)) := by
  intro fuel
  induction fuel with
  | zero =>
    intro i hi
    left
    refine ⟨rfl, fun j hj => absurd j.isLt (by omega)⟩
  | succ n ih =>
    intro i hi
    by_cases h : i < NTPSHMSEGS
    · by_cases hf : isFreeSeg ctx ⟨i, h⟩ = true
      · right
        refine ⟨⟨i, h⟩, Nat.le_refl i, hf,
          fun j hj1 hj2 => absurd (show j.val < i from hj2) (by omega), ?_⟩
        simp [allocScan, h, hf]
      · have hf2 : isFreeSeg ctx ⟨i, h⟩ = false := by simpa using hf
        have hstep : allocScan ctx i (n + 1) = allocScan ctx (i + 1) n := by
          simp [allocScan, h, hf2]
        rcases ih (i + 1) (by omega) with ⟨heq, hall⟩ | ⟨k, hk1, hk2, hk3, hk4⟩
        · left
          refine ⟨by rw [hstep]; exact heq, ?_⟩
          intro j hj
          by_cases hji : j.val = i
          · have hje : j = ⟨i, h⟩ := Fin.ext hji
            rw [hje]
            exact hf2
          · exact hall j (by omega)
        · right
          refine ⟨k, by omega, hk2, ?_, by rw [hstep]; exact hk4⟩
          intro j hj1 hj2
          by_cases hji : j.val = i
          · have hje : j = ⟨i, h⟩ := Fin.ext hji
            rw [hje]
            exact hf2
          · exact hk3 j (by omega) hj2
    · left
      refine ⟨by simp [allocScan, h], fun j hj => absurd j.isLt (by omega)⟩

/-- C4: ntpshm_alloc returns the lowest-indexed slot whose handle is
non-null and whose in-use flag is clear, marks it in use and resets its
contents to zero except mode=1, leap=LEAP_NOTINSYNC, precision=-1,
nsamples=3, leaving every other slot and flag unchanged; when no slot
qualifies it returns none and leaves the bank and all flags unchanged. -/
theorem ntpshm_alloc_spec (ctx : GpsContext) :
    (∀ i : Fin NTPSHMSEGS, (ntpshm_alloc ctx).1 = some i →
      ((ctx.shmTime i).isSome = true ∧ ctx.shmTimeInuse i = false ∧
       (∀ j : Fin NTPSHMSEGS, j.val < i.val →
         ¬((ctx.shmTime j).isSome = true ∧ ctx.shmTimeInuse j = false)) ∧
       (ntpshm_alloc ctx).2.shmTimeInuse i = true ∧
       (ntpshm_alloc ctx).2.shmTime i = some
         { mode := 1, count := 0, clockTimeStampSec := 0, clockTimeStampUSec := 0,
           receiveTimeStampSec := 0, receiveTimeStampUSec := 0,
           leap := LEAP_NOTINSYNC, precision := -1, nsamples := 3, valid := 0,
           clockTimeStampNSec := 0, receiveTimeStampNSec := 0,
           dummy := List.replicate 8 0 } ∧
       (∀ j : Fin NTPSHMSEGS, j ≠ i →
         (ntpshm_alloc ctx).2.shmTime j = ctx.shmTime j ∧
         (ntpshm_alloc ctx).2.shmTimeInuse j = ctx.shmTimeInuse j))) ∧
    ((∀ i : Fin NTPSHMSEGS,
        ¬((ctx.shmTime i).isSome = true ∧ ctx.shmTimeInuse i = false)) →
      ntpshm_alloc ctx = (none, ctx)) := by
  rcases allocScan_cases ctx NTPSHMSEGS 0 (by omega) with
    ⟨heq, hall⟩ | ⟨k, hk0, hkfree, hkmin, heq⟩
  · constructor
    · intro i hi
      rw [show ntpshm_alloc ctx = allocScan ctx 0 NTPSHMSEGS from rfl, heq] at hi
      simp at hi
    · intro _
      exact heq
  · have halloc : ntpshm_alloc ctx = (some k, allocEffect ctx k) := heq
    constructor
    · intro i hi
      rw [halloc] at hi
      have hki : k = i := by simpa using hi
      subst hki
      have hfree := (isFreeSeg_iff ctx k).mp hkfree
      refine ⟨hfree.1, hfree.2, ?_, ?_, ?_, ?_⟩
      · intro j hj hjfree
        have : isFreeSeg ctx j = false := hkmin j (Nat.zero_le j.val) hj
        rw [(isFreeSeg_iff ctx j).mpr hjfree] at this
        simp at this
      · rw [halloc]
        simp [allocEffect]
      · rw [halloc]
        simp [allocEffect, freshShm]
      · intro j hj
        rw [halloc]
        simp [allocEffect, hj]
    · intro hnone
      have := hnone k
      rw [← isFreeSeg_iff ctx k] at this
      exact absurd hkfree this

/-- C4 witness: on the concrete bank with only slot 0 attached and free,
ntpshm_alloc hands out slot 0 with the documented initial contents. -/
theorem ntpshm_alloc_spec_witness :
    (ntpshm_alloc exCtx).1 = some ⟨0, by decide⟩ ∧
    ((exCtx.shmTime ⟨0, by decide⟩).isSome = true ∧
     exCtx.shmTimeInuse ⟨0, by decide⟩ = false ∧
     (∀ j : Fin NTPSHMSEGS, j.val < (⟨0, by decide⟩ : Fin NTPSHMSEGS).val →
       ¬((exCtx.shmTime j).isSome = true ∧ exCtx.shmTimeInuse j = false)) ∧
     (ntpshm_alloc exCtx).2.shmTimeInuse ⟨0, by decide⟩ = true ∧
     (ntpshm_alloc exCtx).2.shmTime ⟨0, by decide⟩ = some
       { mode := 1, count := 0, clockTimeStampSec := 0, clockTimeStampUSec := 0,
         receiveTimeStampSec := 0, receiveTimeStampUSec := 0,
         leap := LEAP_NOTINSYNC, precision := -1, nsamples := 3, valid := 0,
         clockTimeStampNSec := 0, receiveTimeStampNSec := 0,
         dummy := List.replicate 8 0 } ∧
     (∀ j : Fin NTPSHMSEGS, j ≠ ⟨0, by decide⟩ →
       (ntpshm_alloc exCtx).2.shmTime j = exCtx.shmTime j ∧
       (ntpshm_alloc exCtx).2.shmTimeInuse j = exCtx.shmTimeInuse j)) :=
  ⟨by decide, (ntpshm_alloc_spec exCtx).1 ⟨0, by decide⟩ (by decide)⟩

/-- C5 (amended): for a session whose segment handles are both null — the
state session init establishes and deactivate re-establishes —
ntpshm_link_activate followed by ntpshm_link_deactivate leaves every
in-use flag of the pool equal to its value before the activate. -/
theorem activate_deactivate_inuse (ctx : GpsContext) (sess : GpsSession)
    (fd : Int) (hclk : sess.shm_clock = none) (hpps : sess.shm_pps = none) :
    ∀ i : Fin NTPSHMSEGS,
      (ntpshm_link_deactivate (ntpshm_link_activate ctx sess fd).1
        (ntpshm_link_activate ctx sess fd).2).1.shmTimeInuse i =
      ctx.shmTimeInuse i := by
  intro i
  by_cases hpty : sess.sourcetype = SourceType.source_pty
  · simp [ntpshm_link_activate, hpty, ntpshm_link_deactivate, hclk, hpps]
  · rcases allocScan_cases ctx NTPSHMSEGS 0 (by omega) with
      ⟨heq, _⟩ | ⟨k, _, hkfree, _, heq⟩
    · have halloc : ntpshm_alloc ctx = (none, ctx) := heq
      simp [ntpshm_link_activate, hpty, halloc, ntpshm_link_deactivate, hpps]
    · have halloc : ntpshm_alloc ctx = (some k, allocEffect ctx k) := heq
      have hkinuse : ctx.shmTimeInuse k = false := ((isFreeSeg_iff ctx k).mp hkfree).2
      have hshm1 : ((allocEffect ctx k).shmTime k).isSome = true := by
        simp [allocEffect]
      by_cases hsrc : sess.sourcetype = SourceType.source_usb ∨
          sess.sourcetype = SourceType.source_rs232
      · rcases allocScan_cases (allocEffect ctx k) NTPSHMSEGS 0 (by omega) with
          ⟨heq2, _⟩ | ⟨k2, _, hk2free, _, heq2⟩
        · have halloc2 : ntpshm_alloc (allocEffect ctx k) = (none, allocEffect ctx k) :=
            heq2
          simp [ntpshm_link_activate, hpty, halloc, hsrc, halloc2,
                ntpshm_link_deactivate, hpps, ntpshm_free, hshm1]
          by_cases hik : i = k
          · simp [hik, hkinuse]
          · simp [hik, allocEffect]
        · have halloc2 : ntpshm_alloc (allocEffect ctx k) =
              (some k2, allocEffect (allocEffect ctx k) k2) := heq2
          have h2 := ((isFreeSeg_iff (allocEffect ctx k) k2).mp hk2free).2
          have hk2ne : k2 ≠ k := by
            intro e
            rw [e] at h2
            simp [allocEffect] at h2
          have hk2inuse : ctx.shmTimeInuse k2 = false := by
            simpa [allocEffect, hk2ne] using h2
          have hshmA : ((allocEffect (allocEffect ctx k) k2).shmTime k).isSome = true := by
            simp [allocEffect, Ne.symm hk2ne]
          have hshmB : ((allocEffect (allocEffect ctx k) k2).shmTime k2).isSome = true := by
            simp [allocEffect]
          simp [ntpshm_link_activate, hpty, halloc, hsrc, halloc2, init_hook,
                ntpshm_link_deactivate, hpps, ntpshm_free, hshmA, hshmB]
          by_cases hik2 : i = k2
          · simp [hik2, hk2inuse]
          · by_cases hik : i = k
            · simp [hik2, hik, hkinuse]
            · simp [hik2, hik, allocEffect]
      · simp [ntpshm_link_activate, hpty, halloc, hsrc,
              ntpshm_link_deactivate, hpps, ntpshm_free, hshm1]
        by_cases hik : i = k
        · simp [hik, hkinuse]
        · simp [hik, allocEffect]

/-- C5 witness: a round trip on the concrete never-activated session over
the concrete bank leaves slot 0's in-use flag as it was. -/
theorem activate_deactivate_inuse_witness :
    exSessEmpty.shm_clock = none ∧
    (ntpshm_link_deactivate (ntpshm_link_activate exCtx exSessEmpty (-1)).1
      (ntpshm_link_activate exCtx exSessEmpty (-1)).2).1.shmTimeInuse
        ⟨0, by decide⟩ =
      exCtx.shmTimeInuse ⟨0, by decide⟩ :=
  ⟨rfl, activate_deactivate_inuse exCtx exSessEmpty (-1) rfl rfl ⟨0, by decide⟩⟩

/-- A concrete bank whose slot 0 is attached and already in use, for the
C5 counterexample. -/
def exCtxUsed : GpsContext :=
  { shmTime := fun i => if i.val = 0 then some freshShm else none,
    shmTimeInuse := fun i => i.val == 0,
    leap_notify := 0 }

/-- A concrete session holding a stale (dangling) clock handle on slot 0,
of pty source type, for the C5 counterexample. -/
def exSessStale : GpsSession :=
  { shm_clock := some ⟨0, by decide⟩, shm_pps := none, chronyfd := -1,
    ship_to_ntpd := true, fixcnt := 0, sourcetype := SourceType.source_pty,
    pps_active := false, hooks_installed := false }

/-- C5 counterexample: the claim quantifies over every session, but on a
pty-source session carrying a stale clock handle, activate is a no-op
while deactivate frees the stale slot, so slot 0's in-use flag flips from
true to false across the round trip. -/
theorem activate_deactivate_inuse_counterexample :
    exCtxUsed.shmTimeInuse ⟨0, by decide⟩ = true ∧
    (ntpshm_link_deactivate (ntpshm_link_activate exCtxUsed exSessStale (-1)).1
      (ntpshm_link_activate exCtxUsed exSessStale (-1)).2).1.shmTimeInuse
        ⟨0, by decide⟩ = false := by
  decide

/-- C6: every attach call ntpshm_context_init issues for unit i carries
key 0x4E545030 + i and permissions 0600 for i < 2 and 0666 for i >= 2;
without elevated privilege (uid nonzero) no call is issued for units 0
and 1 and their handles are left as they were (null on the fresh
context); where a call is issued the handle becomes exactly what the
attachment yields, so a failed attachment leaves the handle null (and
initialization continues — it is not fatal). -/
theorem ntpshm_context_init_spec (env : ShmEnv) (ctx : GpsContext) :
    (∀ c ∈ (ntpshm_context_init env ctx).2,
       c.key = (0x4E545030 : Int) + c.unit ∧
       c.perms = (if c.unit < 2 then 0o600 else 0o666)) ∧
    (env.uid ≠ 0 →
       (∀ c ∈ (ntpshm_context_init env ctx).2, 2 ≤ c.unit) ∧
       (∀ i : Fin NTPSHMSEGS, i.val < 2 →
          (ntpshm_context_init env ctx).1.shmTime i = ctx.shmTime i)) ∧
    (∀ i : Fin NTPSHMSEGS, (2 ≤ i.val ∨ env.uid = 0) →
       (ntpshm_context_init env ctx).1.shmTime i = env.attach i.val) ∧
    (∀ i : Fin NTPSHMSEGS, (2 ≤ i.val ∨ env.uid = 0) → env.attach i.val = none →
       (ntpshm_context_init env ctx).1.shmTime i = none) := by
  have hmem : ∀ c ∈ (ntpshm_context_init env ctx).2,
      ∃ i : Fin NTPSHMSEGS, (2 ≤ i.val ∨ env.uid = 0) ∧ c = getShmTime_call i.val := by
    intro c hc
    simp only [ntpshm_context_init, List.mem_filterMap] at hc
    obtain ⟨i, _, hi⟩ := hc
    by_cases hcond : 2 ≤ i.val ∨ env.uid = 0
    · rw [if_pos hcond] at hi
      exact ⟨i, hcond, (Option.some_inj.mp hi).symm⟩
    · rw [if_neg hcond] at hi
      exact absurd hi (by simp)
  refine ⟨?_, ?_, ?_, ?_⟩
  · intro c hc
    obtain ⟨i, _, hci⟩ := hmem c hc
    subst hci
    constructor
    · simp [getShmTime_call, NTPD_BASE]
    · rfl
  · intro huid
    constructor
    · intro c hc
      obtain ⟨i, hcond, hci⟩ := hmem c hc
      subst hci
      rcases hcond with h2 | h0
      · exact h2
      · exact absurd h0 huid
    · intro i hi2
      have hcond : ¬(2 ≤ i.val ∨ env.uid = 0) := by
        rintro (h2 | h0)
        · omega
        · exact huid h0
      simp [ntpshm_context_init, hcond]
  · intro i hcond
    simp [ntpshm_context_init, hcond, getShmTime]
  · intro i hcond hfail
    simp [ntpshm_context_init, hcond, getShmTime, hfail]

/-- A concrete un-attached bank (all handles null, flags clear). -/
def exCtxNull : GpsContext :=
  { shmTime := fun _ => none, shmTimeInuse := fun _ => false, leap_notify := 0 }

/-- A concrete unprivileged environment in which every attachment fails. -/
def exEnv : ShmEnv :=
  { attach := fun _ => none, uid := 1 }

/-- C6 witness: when run unprivileged on the fresh context, every call
issued is for a unit at or above 2 and the handles of units 0 and 1 stay
null. -/
theorem ntpshm_context_init_spec_witness :
    exEnv.uid ≠ 0 ∧
    ((∀ c ∈ (ntpshm_context_init exEnv exCtxNull).2, 2 ≤ c.unit) ∧
     (∀ i : Fin NTPSHMSEGS, i.val < 2 →
        (ntpshm_context_init exEnv exCtxNull).1.shmTime i = exCtxNull.shmTime i)) :=
  ⟨by decide, (ntpshm_context_init_spec exEnv exCtxNull).2.1 (by decide)⟩

/-- C8: for a shipping session past the fix gate, report_hook returns
"accepted chrony sock" and transmits exactly one sample datagram (the
chrony_send record) when the chrony socket is open, returns "accepted"
and transmits nothing when it is not; in either case it publishes td into
the session's PPS segment exactly when that segment is non-null. -/
theorem report_hook_accepted (ctx : GpsContext) (sess : GpsSession) (td : TimeDrift)
    (hship : sess.ship_to_ntpd = true) (hfix : PPS_MIN_FIXES < sess.fixcnt) :
    (0 ≤ sess.chronyfd →
       (report_hook ctx sess td).1 = "accepted chrony sock" ∧
       (report_hook ctx sess td).2.2 = [chrony_send ctx td]) ∧
    (sess.chronyfd < 0 →
       (report_hook ctx sess td).1 = "accepted" ∧
       (report_hook ctx sess td).2.2 = []) ∧
    (∀ h : Fin NTPSHMSEGS, sess.shm_pps = some h →
       (report_hook ctx sess td).2.1 = (ntpshm_put ctx sess (some h) td).2) ∧
    (sess.shm_pps = none → (report_hook ctx sess td).2.1 = ctx) := by
  have hfix2 : ¬(sess.fixcnt ≤ PPS_MIN_FIXES) := by omega
  refine ⟨?_, ?_, ?_, ?_⟩
  · intro hfd
    constructor <;> simp [report_hook, hship, hfix2, hfd]
  · intro hfd
    have hfd2 : ¬(0 ≤ sess.chronyfd) := by omega
    constructor <;> simp [report_hook, hship, hfix2, hfd2]
  · intro h hp
    simp [report_hook, hship, hfix2, hp]
  · intro hp
    simp [report_hook, hship, hfix2, hp]

/-- C8 witness: the concrete shipping session with the socket open and
slot 0 as PPS segment gets the chrony label, one datagram, and the slot
publish. -/
theorem report_hook_accepted_witness :
    exSess.ship_to_ntpd = true ∧ PPS_MIN_FIXES < exSess.fixcnt ∧
    (report_hook exCtx exSess exTd).1 = "accepted chrony sock" ∧
    (report_hook exCtx exSess exTd).2.2 = [chrony_send exCtx exTd] ∧
    (report_hook exCtx exSess exTd).2.1 =
      (ntpshm_put exCtx exSess (some ⟨0, by decide⟩) exTd).2 :=
  ⟨rfl, by decide,
   ((report_hook_accepted exCtx exSess exTd rfl (by decide)).1 (by decide)).1,
   ((report_hook_accepted exCtx exSess exTd rfl (by decide)).1 (by decide)).2,
   (report_hook_accepted exCtx exSess exTd rfl (by decide)).2.2.1 ⟨0, by decide⟩ rfl⟩
